import Mathlib

/-!
Verification of the currency-exchange gateway (src/main.py).

The service is a stateless HTTP facade: every handler is a pure function of
the request, the outcome of the single outbound provider call, and the
outcome of the storage collaborator.  We embed each handler as a Lean
function over those inputs.  Floats are modelled as rationals, JSON-optional
fields as Option, and Python exceptions from collaborators as explicit
outcome types.  Provider responses range over the documented response schema
(optional success flag, optional numeric fields).
-/

namespace CurrencyExchange

/-- HTTP handler outcome: either a 200 body or an HTTPException with a
status code and detail string (FastAPI turns a raised HTTPException into
that status). -/
inductive HttpOutcome (α : Type) where
  | ok (body : α)
  | error (status : Nat) (detail : String)
deriving DecidableEq

/-- The JSON body of POST /api/convert before validation
(src/main.py lines 19-22 declare the pydantic model ConvertRequest). -/
structure RawConvertRequest where
  from_currency : String
  to_currency : String
  amount : ℚ
deriving DecidableEq

/-- The pydantic constraints of ConvertRequest: both codes of length
exactly 3 (min_length=3, max_length=3) and amount >= 0 (ge=0). -/
def validRequest (r : RawConvertRequest) : Bool :=
  decide (r.from_currency.length = 3) && decide (r.to_currency.length = 3) &&
    decide (0 ≤ r.amount)

/-- Body of a provider response to GET /convert, per the documented schema:
optional success flag, optional info.rate, optional result. -/
structure ConvertResponse where
  success : Option Bool
  info_rate : Option ℚ
  result : Option ℚ
deriving DecidableEq

/-- Outcome of the outbound provider call in convert_currency: a transport
failure (requests.RequestException, including the raise_for_status path) or
a decoded 2xx JSON body. -/
inductive ConvertProviderOutcome where
  | transportError (msg : String)
  | response (data : ConvertResponse)
deriving DecidableEq

/-- The transaction dict built by convert_currency (src/main.py lines
134-140), with the optional storage id attached at line 146. -/
structure ConvTx where
  from_currency : String
  to_currency : String
  amount : ℚ
  rate : ℚ
  result : ℚ
  id : Option String
deriving DecidableEq

/-- Counts of outbound calls issued by one request, used to state that
validation failures issue no network call. -/
structure Calls where
  provider : Nat
  storage : Nat
deriving DecidableEq

/-- Python `x or d` on an optional float: None and 0 are falsy, any other
number is returned as is.  Models `info.get("rate") or 0` and
`data.get("result") or (rate * amount)` at src/main.py lines 128-129. -/
def pyOrQ : Option ℚ → ℚ → ℚ
  | some q, d => if q = 0 then d else q
  | none, d => d

/-- The convert_currency handler body (src/main.py lines 110-151), after
request validation has succeeded.  The storage argument is the outcome of
create_document: an identifier on success, or any exception (module absent,
write error), which the handler swallows. -/
def convert_currency (payload : RawConvertRequest)
    (provider : ConvertProviderOutcome) (storage : Except Unit String) :
    HttpOutcome ConvTx × Calls :=
  let from_currency := payload.from_currency.toUpper
  let to_currency := payload.to_currency.toUpper
  let amount := payload.amount
  match provider with
  | .transportError msg =>
      (.error 502 ("Conversion provider error: " ++ msg), ⟨1, 0⟩)
  | .response data =>
      if data.success.getD true = false then
        (.error 502 "Failed to convert", ⟨1, 0⟩)
      else
        let rate := pyOrQ data.info_rate 0
        let result := pyOrQ data.result (rate * amount)
        let tx : ConvTx := ⟨from_currency, to_currency, amount, rate, result, none⟩
        match storage with
        | .ok oid => (.ok { tx with id := some oid }, ⟨1, 1⟩)
        | .error _ => (.ok tx, ⟨1, 1⟩)

/-- The full POST /api/convert endpoint: FastAPI first validates the body
against the pydantic model; a violation is rejected with HTTP 422
(FastAPI maps RequestValidationError to 422 Unprocessable Entity; no custom
handler overrides that in src/main.py) before the handler, and hence any
outbound call, runs. -/
def convertEndpoint (raw : RawConvertRequest)
    (provider : ConvertProviderOutcome) (storage : Except Unit String) :
    HttpOutcome ConvTx × Calls :=
  if validRequest raw then convert_currency raw provider storage
  else (.error 422 "request validation error", ⟨0, 0⟩)

/-- Body of a provider response to GET /latest, per the documented schema. -/
structure RatesResponse where
  success : Option Bool
  base : Option String
  date : Option String
  rates : Option (List (String × ℚ))
deriving DecidableEq

/-- Outcome of the outbound call in get_rates. -/
inductive RatesProviderOutcome where
  | transportError (msg : String)
  | response (data : RatesResponse)
deriving DecidableEq

/-- The JSON body returned by a successful GET /api/rates. -/
structure RatesSnapshot where
  base : String
  date : Option String
  rates : List (String × ℚ)
deriving DecidableEq

/-- Query parameters sent to the provider by get_rates (src/main.py lines
89-92): base uppercased, symbols uppercased and included only when truthy
(a non-empty string). -/
def ratesParams (base : String) (symbols : Option String) : List (String × String) :=
  let base := base.toUpper
  ("base", base) ::
    (match symbols with
     | some s => if s = "" then [] else [("symbols", s.toUpper)]
     | none => [])

/-- The get_rates handler (src/main.py lines 82-106).  The symbols
parameter only affects the outbound query (see ratesParams), not the
response shaping, so it is not an argument here. -/
def get_rates (base : String) (provider : RatesProviderOutcome) :
    HttpOutcome RatesSnapshot :=
  let base := base.toUpper
  match provider with
  | .transportError msg => .error 502 ("Rates provider error: " ++ msg)
  | .response data =>
      if data.success.getD true = false then .error 502 "Failed to fetch rates"
      else .ok ⟨data.base.getD base, data.date, data.rates.getD []⟩

/-- Values stored in a document: JSON scalars plus the BSON types the
listing path distinguishes, ObjectId and datetime (the only stdlib value
with an isoformat attribute reachable here; it carries its ISO-8601
rendering). -/
inductive BVal where
  | null
  | bool (b : Bool)
  | num (q : ℚ)
  | str (s : String)
  | objectId (oid : String)
  | datetime (iso : String)
deriving DecidableEq

/-- Python str() on an embedded value.  An ObjectId renders as its hex
string.  Only the ObjectId case is reachable through the claims (it is
applied to the _id field); the scalar cases follow CPython, and a datetime
is approximated by its ISO rendering. -/
def pyStr : BVal → String
  | .null => "None"
  | .bool true => "True"
  | .bool false => "False"
  | .num q => toString q
  | .str s => s
  | .objectId oid => oid
  | .datetime iso => iso

/-- A stored document: association list of field name to value. -/
abbrev Doc := List (String × BVal)

/-- One field of the serialize closure in list_transactions (src/main.py
lines 164-175): _id is renamed to id and stringified; a value with an
isoformat attribute is rendered ISO-8601; an ObjectId value is stringified;
anything else passes through. -/
def serializePair : String × BVal → String × BVal
  | (k, v) =>
      if k = "_id" then ("id", .str (pyStr v))
      else
        match v with
        | .datetime iso => (k, .str iso)
        | .objectId oid => (k, .str oid)
        | v => (k, v)

/-- The serialize closure applied to a whole document. -/
def serialize (doc : Doc) : Doc := doc.map serializePair

/-- The JSON body returned by GET /api/transactions. -/
structure TransactionsResponse where
  items : List Doc
deriving DecidableEq

/-- The list_transactions handler (src/main.py lines 155-180).  The storage
argument is the behavior of get_documents("exchange", limit=limit): given
the limit it either returns documents or raises (module absent, query
error); any exception yields the empty items list. -/
def list_transactions (limit : Nat) (storage : Nat → Except Unit (List Doc)) :
    TransactionsResponse :=
  match storage limit with
  | .ok docs => ⟨docs.map serialize⟩
  | .error _ => ⟨[]⟩

/-- Modelled from the spec: create_document lives in the database module,
which is not under src/.  Per section 6, createDocument(collection, record)
stores the record under a fresh identifier and returns that identifier; the
stored document carries it in the _id field, and getDocuments returns
newest first, so the new document is stored at the front. -/
def create_document (collection : List Doc) (record : Doc) (oid : String) :
    List Doc :=
  (("_id", BVal.objectId oid) :: record) :: collection

/-- Modelled from the spec: get_documents lives in the database module,
which is not under src/.  Per section 6, getDocuments(collection, limit)
returns up to limit records, most recent first. -/
def get_documents (collection : List Doc) (limit : Nat) : List Doc :=
  collection.take limit

/-- The transaction record persisted by convert_currency (src/main.py lines
134-140): the tx dict as passed to create_document, before any id field is
attached. -/
def txDoc (tx : ConvTx) : Doc :=
  [("from_currency", .str tx.from_currency),
   ("to_currency", .str tx.to_currency),
   ("amount", .num tx.amount),
   ("rate", .num tx.rate),
   ("result", .num tx.result)]

/-- The two environment variables test_database inspects. -/
structure Env where
  DATABASE_URL : Option String
  DATABASE_NAME : Option String
deriving DecidableEq

/-- Python truthiness of os.getenv: None (unset) and the empty string are
falsy. -/
def envTruthy : Option String → Bool
  | some s => s ≠ ""
  | none => false

/-- State of the storage collaborator as seen by the /test endpoint:
importing the database module raises ImportError, or raises some other
exception, or yields db = None, or yields a handle whose
list_collection_names() either returns names or raises. -/
inductive DbState where
  | importError
  | importException (msg : String)
  | dbNone
  | db (name : Option String) (listCollections : Except String (List String))

/-- The JSON body returned by GET /test.  The database_url and
database_name fields are strings in every reachable final state: lines
70-72 of src/main.py overwrite the initial None values unconditionally
(they sit after every try/except block, and no statement between them can
raise), which also discards the intermediate values set at lines 52-53. -/
structure TestResponse where
  backend : String
  database : String
  database_url : String
  database_name : String
  connection_status : String
  collections : List String
deriving DecidableEq

/-- The test_database handler (src/main.py lines 36-74).  Total: every
exception path is caught, so the endpoint always returns HTTP 200 with this
body. -/
def test_database (env : Env) (st : DbState) : TestResponse :=
  { backend := "✅ Running"
    database :=
      match st with
      | .importError => "❌ Database module not found (run enable-database first)"
      | .importException msg => "❌ Error: " ++ msg.take 50
      | .dbNone => "⚠️  Available but not initialized"
      | .db _ (.ok _) => "✅ Connected & Working"
      | .db _ (.error msg) => "⚠️  Connected but Error: " ++ msg.take 50
    connection_status :=
      match st with
      | .db _ _ => "Connected"
      | _ => "Not Connected"
    collections :=
      match st with
      | .db _ (.ok cols) => cols.take 10
      | _ => []
    database_url := if envTruthy env.DATABASE_URL then "✅ Set" else "❌ Not Set"
    database_name := if envTruthy env.DATABASE_NAME then "✅ Set" else "❌ Not Set" }

/-! ## Helper lemmas -/

theorem pyOrQ_getD_zero (o : Option ℚ) : pyOrQ o 0 = o.getD 0 := by
  cases o with
  | none => rfl
  | some q =>
      by_cases hq : q = 0 <;> simp [pyOrQ, hq]

theorem pyOrQ_of_truthy (o : Option ℚ) (d r : ℚ) (h : o = some r) (hr : r ≠ 0) :
    pyOrQ o d = r := by
  subst h
  simp [pyOrQ, hr]

theorem pyOrQ_of_falsy (o : Option ℚ) (d : ℚ) (h : o = none ∨ o = some 0) :
    pyOrQ o d = d := by
  rcases h with h | h <;> subst h <;> simp [pyOrQ]

theorem pyOrQ_nonneg (o : Option ℚ) (d : ℚ) (hd : 0 ≤ d)
    (h : ∀ q, o = some q → 0 ≤ q) : 0 ≤ pyOrQ o d := by
  cases o with
  | none => exact hd
  | some q =>
      by_cases hq : q = 0
      · simpa [pyOrQ, hq] using hd
      · simpa [pyOrQ, hq] using h q rfl

/-! ## Claims -/

/-- Claim C3: after a successful provider call, convert_currency takes the
rate from the nested info.rate field with default 0 when absent, returns
the provider result field when it is present and truthy, and falls back to
rate * amount whenever the result field is absent or falsy (in particular a
provider result of 0 or null triggers the fallback, not only omission). -/
theorem C3_rate_and_result (payload : RawConvertRequest) (data : ConvertResponse)
    (storage : Except Unit String) (hs : data.success.getD true = true) :
    ∃ tx : ConvTx,
      (convert_currency payload (.response data) storage).1 = .ok tx ∧
      tx.rate = data.info_rate.getD 0 ∧
      (∀ r, data.result = some r → r ≠ 0 → tx.result = r) ∧
      ((data.result = none ∨ data.result = some 0) →
        tx.result = tx.rate * payload.amount) := by
  cases storage with
  | ok oid =>
      refine ⟨⟨payload.from_currency.toUpper, payload.to_currency.toUpper,
        payload.amount, pyOrQ data.info_rate 0,
        pyOrQ data.result (pyOrQ data.info_rate 0 * payload.amount), some oid⟩,
        ?_, pyOrQ_getD_zero _, ?_, ?_⟩
      · simp [convert_currency, hs]
      · intro r hr hrne
        exact pyOrQ_of_truthy _ _ _ hr hrne
      · intro h
        exact pyOrQ_of_falsy _ _ h
  | error e =>
      refine ⟨⟨payload.from_currency.toUpper, payload.to_currency.toUpper,
        payload.amount, pyOrQ data.info_rate 0,
        pyOrQ data.result (pyOrQ data.info_rate 0 * payload.amount), none⟩,
        ?_, pyOrQ_getD_zero _, ?_, ?_⟩
      · simp [convert_currency, hs]
      · intro r hr hrne
        exact pyOrQ_of_truthy _ _ _ hr hrne
      · intro h
        exact pyOrQ_of_falsy _ _ h

theorem C3_witness :
    ((some true : Option Bool).getD true = true) ∧
    (∃ tx : ConvTx,
      (convert_currency ⟨"usd", "eur", 2⟩
          (.response ⟨some true, some 3, none⟩) (.error ())).1 = .ok tx ∧
      tx.rate = (some (3 : ℚ)).getD 0 ∧
      (∀ r, (none : Option ℚ) = some r → r ≠ 0 → tx.result = r) ∧
      (((none : Option ℚ) = none ∨ (none : Option ℚ) = some 0) →
        tx.result = tx.rate * (2 : ℚ))) :=
  ⟨rfl, C3_rate_and_result ⟨"usd", "eur", 2⟩ ⟨some true, some 3, none⟩ (.error ()) rfl⟩

/-- Claim C4: when the provider call succeeds, convert_currency returns
HTTP 200 regardless of the storage outcome; persistence success attaches
the storage id and persistence failure yields the identical ConversionResult
without an id, with all other fields unchanged and the failure never
surfaced. -/
theorem C4_storage_best_effort (payload : RawConvertRequest)
    (data : ConvertResponse) (oid : String)
    (hs : data.success.getD true = true) :
    ∃ tx : ConvTx,
      (convert_currency payload (.response data) (.error ())).1 = .ok tx ∧
      tx.id = none ∧
      (convert_currency payload (.response data) (.ok oid)).1 =
        .ok { tx with id := some oid } := by
  refine ⟨⟨payload.from_currency.toUpper, payload.to_currency.toUpper,
    payload.amount, pyOrQ data.info_rate 0,
    pyOrQ data.result (pyOrQ data.info_rate 0 * payload.amount), none⟩,
    ?_, rfl, ?_⟩ <;>
  simp [convert_currency, hs]

theorem C4_witness :
    ((some true : Option Bool).getD true = true) ∧
    (∃ tx : ConvTx,
      (convert_currency ⟨"usd", "eur", 2⟩
          (.response ⟨some true, some 3, some 6⟩) (.error ())).1 = .ok tx ∧
      tx.id = none ∧
      (convert_currency ⟨"usd", "eur", 2⟩
          (.response ⟨some true, some 3, some 6⟩) (.ok "abc123")).1 =
        .ok { tx with id := some "abc123" }) :=
  ⟨rfl, C4_storage_best_effort ⟨"usd", "eur", 2⟩ ⟨some true, some 3, some 6⟩ "abc123" rfl⟩

/-- Claim C1 counterexample: for the valid request (USD, EUR, 1) and a
schema-conforming provider response carrying info.rate = -1 and no result
field, the endpoint returns HTTP 200 with rate = -1 < 0, so the claimed
dichotomy (200 with rate >= 0 and result = rate * amount, or 502) fails. -/
theorem C1_counterexample :
    ¬ ((∃ tx : ConvTx,
          (convertEndpoint ⟨"USD", "EUR", 1⟩
              (.response ⟨none, some (-1), none⟩) (.error ())).1 = .ok tx ∧
          0 ≤ tx.rate ∧ tx.result = tx.rate * tx.amount) ∨
       (∃ d, (convertEndpoint ⟨"USD", "EUR", 1⟩
              (.response ⟨none, some (-1), none⟩) (.error ())).1 = .error 502 d)) := by
  have h1 : validRequest ⟨"USD", "EUR", 1⟩ = true := by decide
  have hev : (convertEndpoint ⟨"USD", "EUR", 1⟩
      (.response ⟨none, some (-1), none⟩) (.error ())).1 =
      .ok ⟨"USD".toUpper, "EUR".toUpper, 1, pyOrQ (some (-1)) 0,
        pyOrQ none (pyOrQ (some (-1)) 0 * 1), none⟩ := by
    rw [convertEndpoint, if_pos h1]
    rfl
  have hr : ¬ (0 : ℚ) ≤ pyOrQ (some (-1)) 0 := by
    norm_num [pyOrQ]
  rintro (⟨tx, htx, hrate, -⟩ | ⟨d, hd⟩)
  · rw [hev] at htx
    injection htx with h
    subst h
    exact hr hrate
  · rw [hev] at hd
    simp at hd

/-- Claim C1 (amended): for every request with two 3-letter codes and
amount >= 0, and every provider and storage outcome, the endpoint either
returns HTTP 200 with result = rate * amount whenever the provider omits an
explicit result field, and with rate >= 0 whenever the provider rate field
is absent or non-negative, or it fails with HTTP 502; no other outcome is
possible. -/
theorem C1_dichotomy (raw : RawConvertRequest) (provider : ConvertProviderOutcome)
    (storage : Except Unit String)
    (hf : raw.from_currency.length = 3) (ht : raw.to_currency.length = 3)
    (ha : 0 ≤ raw.amount) :
    (∃ tx : ConvTx, (convertEndpoint raw provider storage).1 = .ok tx ∧
       (∀ data, provider = .response data →
          (data.result = none → tx.result = tx.rate * tx.amount) ∧
          ((∀ q, data.info_rate = some q → 0 ≤ q) → 0 ≤ tx.rate))) ∨
    (∃ d, (convertEndpoint raw provider storage).1 = .error 502 d) := by
  have hv : validRequest raw = true := by
    simp [validRequest, hf, ht, ha]
  rw [convertEndpoint, if_pos hv]
  cases provider with
  | transportError msg =>
      exact Or.inr ⟨"Conversion provider error: " ++ msg, by simp [convert_currency]⟩
  | response data =>
      cases hgd : data.success.getD true with
      | false =>
          exact Or.inr ⟨"Failed to convert", by simp [convert_currency, hgd]⟩
      | true =>
          left
          have hres : ∀ tx : ConvTx,
              tx.rate = pyOrQ data.info_rate 0 →
              tx.result = pyOrQ data.result (pyOrQ data.info_rate 0 * raw.amount) →
              tx.amount = raw.amount →
              (∀ d2, ConvertProviderOutcome.response data = .response d2 →
                (d2.result = none → tx.result = tx.rate * tx.amount) ∧
                ((∀ q, d2.info_rate = some q → 0 ≤ q) → 0 ≤ tx.rate)) := by
            rintro tx h1 h2 h3 d2 hd2
            injection hd2 with hd2
            subst hd2
            constructor
            · intro hn
              rw [h2, pyOrQ_of_falsy _ _ (Or.inl hn), h1, h3]
            · intro hq
              rw [h1]
              exact pyOrQ_nonneg _ _ le_rfl hq
          cases storage with
          | ok oid =>
              refine ⟨⟨raw.from_currency.toUpper, raw.to_currency.toUpper,
                raw.amount, pyOrQ data.info_rate 0,
                pyOrQ data.result (pyOrQ data.info_rate 0 * raw.amount),
                some oid⟩, ?_, hres _ rfl rfl rfl⟩
              simp [convert_currency, hgd]
          | error e =>
              refine ⟨⟨raw.from_currency.toUpper, raw.to_currency.toUpper,
                raw.amount, pyOrQ data.info_rate 0,
                pyOrQ data.result (pyOrQ data.info_rate 0 * raw.amount),
                none⟩, ?_, hres _ rfl rfl rfl⟩
              simp [convert_currency, hgd]

theorem C1_dichotomy_witness :
    (("USD" : String).length = 3) ∧ (("EUR" : String).length = 3) ∧
    ((0 : ℚ) ≤ 1) ∧
    ((∃ tx : ConvTx,
        (convertEndpoint ⟨"USD", "EUR", 1⟩ (.transportError "down") (.error ())).1 =
          .ok tx ∧
        (∀ data, ConvertProviderOutcome.transportError "down" = .response data →
           (data.result = none → tx.result = tx.rate * tx.amount) ∧
           ((∀ q, data.info_rate = some q → 0 ≤ q) → 0 ≤ tx.rate))) ∨
     (∃ d, (convertEndpoint ⟨"USD", "EUR", 1⟩ (.transportError "down") (.error ())).1 =
        .error 502 d)) :=
  ⟨rfl, rfl, by norm_num,
    C1_dichotomy ⟨"USD", "EUR", 1⟩ (.transportError "down") (.error ())
      rfl rfl (by norm_num)⟩

/-- Claim C2 counterexample: a body with amount = -1 and 3-letter codes is
rejected by FastAPI request validation with HTTP 422 (Unprocessable
Entity), not HTTP 400 as claimed; no outbound call is made, but the status
code differs from the claim. -/
theorem C2_counterexample :
    (convertEndpoint ⟨"USD", "EUR", -1⟩ (.transportError "unreachable") (.error ())).2 =
      ⟨0, 0⟩ ∧
    (convertEndpoint ⟨"USD", "EUR", -1⟩ (.transportError "unreachable") (.error ())).1 =
      .error 422 "request validation error" ∧
    ¬ ∃ d, (convertEndpoint ⟨"USD", "EUR", -1⟩
        (.transportError "unreachable") (.error ())).1 = .error 400 d := by
  refine ⟨by decide, by decide, ?_⟩
  rintro ⟨d, hd⟩
  have hev : (convertEndpoint ⟨"USD", "EUR", -1⟩
      (.transportError "unreachable") (.error ())).1 =
      .error 422 "request validation error" := by decide
  rw [hev] at hd
  simp at hd

/-- Claim C2 (amended): for every body with amount < 0 or a currency code
whose length is not 3, the endpoint rejects with HTTP 422 (the FastAPI
request-validation status) before issuing any outbound call: both the
provider and the storage call counters are zero. -/
theorem C2_validation_rejects (raw : RawConvertRequest)
    (provider : ConvertProviderOutcome) (storage : Except Unit String)
    (h : raw.amount < 0 ∨ raw.from_currency.length ≠ 3 ∨
      raw.to_currency.length ≠ 3) :
    convertEndpoint raw provider storage =
      (.error 422 "request validation error", ⟨0, 0⟩) := by
  rw [convertEndpoint]
  cases hvb : validRequest raw with
  | false => simp
  | true =>
      exfalso
      simp only [validRequest, Bool.and_eq_true, decide_eq_true_eq] at hvb
      rcases h with h | h | h
      · exact absurd hvb.2 (not_le.mpr h)
      · exact h hvb.1.1
      · exact h hvb.1.2

theorem C2_validation_rejects_witness :
    (((-1 : ℚ) < 0) ∨ (("USD" : String).length ≠ 3) ∨
      (("EUR" : String).length ≠ 3)) ∧
    convertEndpoint ⟨"USD", "EUR", -1⟩ (.transportError "unreachable") (.error ()) =
      (.error 422 "request validation error", ⟨0, 0⟩) :=
  ⟨Or.inl (by norm_num),
    C2_validation_rejects ⟨"USD", "EUR", -1⟩ (.transportError "unreachable")
      (.error ()) (Or.inl (by norm_num))⟩

/-- Claim C5: a transaction record persisted by convert_currency to the
exchange collection reappears through list_transactions (for any limit of
at least one, it is the newest item) with from_currency, to_currency,
amount, rate and result equal to the persisted values and an id field that
is the stringified storage identifier. -/
theorem C5_roundtrip (tx : ConvTx) (oid : String) (store : List Doc)
    (limit : Nat) (h : 1 ≤ limit) :
    (list_transactions limit
        (fun l => .ok (get_documents (create_document store (txDoc tx) oid) l))).items.head?
      = some (("id", BVal.str oid) :: txDoc tx) := by
  cases limit with
  | zero => omega
  | succ n => rfl

theorem C5_roundtrip_witness :
    (1 ≤ 1) ∧
    (list_transactions 1
        (fun l => .ok (get_documents (create_document []
            (txDoc ⟨"USD", "EUR", 1, 2, 2, none⟩) "abc123") l))).items.head?
      = some (("id", BVal.str "abc123") :: txDoc ⟨"USD", "EUR", 1, 2, 2, none⟩) :=
  ⟨le_refl 1,
    C5_roundtrip ⟨"USD", "EUR", 1, 2, 2, none⟩ "abc123" [] 1 (le_refl 1)⟩

/-- Claim C6: for every limit, list_transactions with a failing storage
collaborator (import failure, query error, or any other exception) returns
HTTP 200 with an empty items list, never an error response. -/
theorem C6_failure_yields_empty (limit : Nat)
    (storage : Nat → Except Unit (List Doc)) (h : storage limit = .error ()) :
    list_transactions limit storage = ⟨[]⟩ := by
  unfold list_transactions
  rw [h]

theorem C6_failure_yields_empty_witness :
    ((fun _ : Nat => (Except.error () : Except Unit (List Doc))) 7 = .error ()) ∧
    list_transactions 7 (fun _ => .error ()) = ⟨[]⟩ :=
  ⟨rfl, C6_failure_yields_empty 7 (fun _ => .error ()) rfl⟩

/-- Claim C7 counterexample: an ObjectId value stored under a key other
than _id does not pass through unchanged, contrary to the claim: serialize
stringifies it. -/
theorem C7_counterexample :
    serialize [("ref", BVal.objectId "abc123")] ≠ [("ref", BVal.objectId "abc123")] := by
  decide

/-- Claim C7 (amended): serialize renames the _id field to id and
stringifies it, renders datetime values as their ISO-8601 strings,
stringifies ObjectId values stored under other keys, and passes every
remaining field through unchanged. -/
theorem C7_normalization (doc : Doc) (k : String) (v : BVal)
    (hm : (k, v) ∈ doc) :
    (k = "_id" → ("id", BVal.str (pyStr v)) ∈ serialize doc) ∧
    (k ≠ "_id" → ∀ iso, v = .datetime iso → (k, BVal.str iso) ∈ serialize doc) ∧
    (k ≠ "_id" → ∀ oid, v = .objectId oid → (k, BVal.str oid) ∈ serialize doc) ∧
    (k ≠ "_id" → (∀ iso, v ≠ .datetime iso) → (∀ oid, v ≠ .objectId oid) →
      (k, v) ∈ serialize doc) := by
  have hmem : serializePair (k, v) ∈ serialize doc := List.mem_map_of_mem _ hm
  refine ⟨?_, ?_, ?_, ?_⟩
  · intro hk
    have he : serializePair (k, v) = ("id", .str (pyStr v)) := by
      simp [serializePair, hk]
    rwa [he] at hmem
  · intro hk iso hv
    subst hv
    have he : serializePair (k, .datetime iso) = (k, .str iso) := by
      simp [serializePair, hk]
    rwa [he] at hmem
  · intro hk oid hv
    subst hv
    have he : serializePair (k, .objectId oid) = (k, .str oid) := by
      simp [serializePair, hk]
    rwa [he] at hmem
  · intro hk hd ho
    have he : serializePair (k, v) = (k, v) := by
      cases v with
      | null => simp [serializePair, hk]
      | bool b => simp [serializePair, hk]
      | num q => simp [serializePair, hk]
      | str s => simp [serializePair, hk]
      | datetime iso => exact absurd rfl (hd iso)
      | objectId oid => exact absurd rfl (ho oid)
    rwa [he] at hmem

theorem C7_normalization_witness :
    (("x", BVal.num 1) ∈ [("x", BVal.num 1)]) ∧
    ((("x" : String) = "_id" →
        ("id", BVal.str (pyStr (BVal.num 1))) ∈ serialize [("x", BVal.num 1)]) ∧
     (("x" : String) ≠ "_id" → ∀ iso, BVal.num 1 = .datetime iso →
        ("x", BVal.str iso) ∈ serialize [("x", BVal.num 1)]) ∧
     (("x" : String) ≠ "_id" → ∀ oid, BVal.num 1 = .objectId oid →
        ("x", BVal.str oid) ∈ serialize [("x", BVal.num 1)]) ∧
     (("x" : String) ≠ "_id" → (∀ iso, BVal.num 1 ≠ .datetime iso) →
        (∀ oid, BVal.num 1 ≠ .objectId oid) →
        ("x", BVal.num 1) ∈ serialize [("x", BVal.num 1)])) :=
  ⟨by simp, C7_normalization [("x", BVal.num 1)] "x" (BVal.num 1) (by simp)⟩

/-- Claim C8: for every GetRates request whose provider call returns a 2xx
body without a failure flag, the response is 200 with base taken from the
provider body and falling back to the uppercased request base when absent,
date passed through verbatim, and rates passed through verbatim with the
empty mapping as default. -/
theorem C8_rates_success (base : String) (data : RatesResponse)
    (hs : data.success.getD true = true) :
    get_rates base (.response data) =
      .ok ⟨data.base.getD base.toUpper, data.date, data.rates.getD []⟩ := by
  simp [get_rates, hs]

theorem C8_rates_success_witness :
    ((none : Option Bool).getD true = true) ∧
    get_rates "usd" (.response ⟨none, some "EUR", some "2024-01-01", some [("GBP", 2)]⟩) =
      .ok ⟨(some "EUR").getD ("usd".toUpper), some "2024-01-01",
        (some [("GBP", (2 : ℚ))]).getD []⟩ :=
  ⟨rfl, C8_rates_success "usd" ⟨none, some "EUR", some "2024-01-01", some [("GBP", 2)]⟩ rfl⟩

/-- Claim C9: test_database is total (the endpoint never raises and always
answers HTTP 200 with this body) for every storage collaborator state; each
failure maps to its descriptive status string, and at most 10 collection
names are included. -/
theorem C9_diagnostics (env : Env) (st : DbState) :
    (test_database env st).backend = "✅ Running" ∧
    (test_database env st).collections.length ≤ 10 ∧
    (test_database env st).database =
      (match st with
       | .importError => "❌ Database module not found (run enable-database first)"
       | .importException msg => "❌ Error: " ++ msg.take 50
       | .dbNone => "⚠️  Available but not initialized"
       | .db _ (.ok _) => "✅ Connected & Working"
       | .db _ (.error msg) => "⚠️  Connected but Error: " ++ msg.take 50) := by
  refine ⟨rfl, ?_, ?_⟩
  · cases st with
    | importError => simp [test_database]
    | importException msg => simp [test_database]
    | dbNone => simp [test_database]
    | db name lc =>
        cases lc with
        | ok cols =>
            show (cols.take 10).length ≤ 10
            rw [List.length_take]
            exact min_le_left _ _
        | error msg => simp [test_database]
  · cases st with
    | importError => rfl
    | importException msg => rfl
    | dbNone => rfl
    | db name lc => cases lc with
        | ok cols => rfl
        | error msg => rfl

/-- Claim C10 counterexample: two environments in which DATABASE_URL is
present in both (the empty string in one, a non-empty value in the other)
agree in presence yet produce different database_url fields, because the
code tests Python truthiness of the value, not presence. -/
theorem C10_counterexample :
    ((⟨some "", none⟩ : Env).DATABASE_URL.isSome =
      (⟨some "postgres://h/db", none⟩ : Env).DATABASE_URL.isSome) ∧
    ((⟨some "", none⟩ : Env).DATABASE_NAME.isSome =
      (⟨some "postgres://h/db", none⟩ : Env).DATABASE_NAME.isSome) ∧
    (test_database ⟨some "", none⟩ .dbNone).database_url ≠
      (test_database ⟨some "postgres://h/db", none⟩ .dbNone).database_url := by
  refine ⟨rfl, rfl, ?_⟩
  decide

/-- Claim C10 (amended): the database_url and database_name fields are
always exactly one of the two presence strings, and are determined solely
by whether the corresponding environment variable is present with a
non-empty value: two environments agreeing in that respect produce
identical fields regardless of the values and of the storage state, so the
values are never echoed beyond their non-emptiness. -/
theorem C10_presence_only (e1 e2 : Env) (s1 s2 : DbState)
    (hu : envTruthy e1.DATABASE_URL = envTruthy e2.DATABASE_URL)
    (hn : envTruthy e1.DATABASE_NAME = envTruthy e2.DATABASE_NAME) :
    ((test_database e1 s1).database_url = (test_database e2 s2).database_url) ∧
    ((test_database e1 s1).database_name = (test_database e2 s2).database_name) ∧
    ((test_database e1 s1).database_url = "✅ Set" ∨
      (test_database e1 s1).database_url = "❌ Not Set") ∧
    ((test_database e1 s1).database_name = "✅ Set" ∨
      (test_database e1 s1).database_name = "❌ Not Set") := by
  refine ⟨?_, ?_, ?_, ?_⟩
  · show (if envTruthy e1.DATABASE_URL then "✅ Set" else "❌ Not Set")
        = (if envTruthy e2.DATABASE_URL then "✅ Set" else "❌ Not Set")
    rw [hu]
  · show (if envTruthy e1.DATABASE_NAME then "✅ Set" else "❌ Not Set")
        = (if envTruthy e2.DATABASE_NAME then "✅ Set" else "❌ Not Set")
    rw [hn]
  · show (if envTruthy e1.DATABASE_URL then "✅ Set" else "❌ Not Set") = "✅ Set" ∨
        (if envTruthy e1.DATABASE_URL then "✅ Set" else "❌ Not Set") = "❌ Not Set"
    cases hb : envTruthy e1.DATABASE_URL <;> simp
  · show (if envTruthy e1.DATABASE_NAME then "✅ Set" else "❌ Not Set") = "✅ Set" ∨
        (if envTruthy e1.DATABASE_NAME then "✅ Set" else "❌ Not Set") = "❌ Not Set"
    cases hb : envTruthy e1.DATABASE_NAME <;> simp

theorem C10_presence_only_witness :
    (envTruthy (⟨some "postgres://a/db1", none⟩ : Env).DATABASE_URL =
      envTruthy (⟨some "postgres://b/db2", none⟩ : Env).DATABASE_URL) ∧
    (envTruthy (⟨some "postgres://a/db1", none⟩ : Env).DATABASE_NAME =
      envTruthy (⟨some "postgres://b/db2", none⟩ : Env).DATABASE_NAME) ∧
    (((test_database ⟨some "postgres://a/db1", none⟩ .importError).database_url =
        (test_database ⟨some "postgres://b/db2", none⟩ .dbNone).database_url) ∧
     ((test_database ⟨some "postgres://a/db1", none⟩ .importError).database_name =
        (test_database ⟨some "postgres://b/db2", none⟩ .dbNone).database_name) ∧
     ((test_database ⟨some "postgres://a/db1", none⟩ .importError).database_url = "✅ Set" ∨
        (test_database ⟨some "postgres://a/db1", none⟩ .importError).database_url = "❌ Not Set") ∧
     ((test_database ⟨some "postgres://a/db1", none⟩ .importError).database_name = "✅ Set" ∨
        (test_database ⟨some "postgres://a/db1", none⟩ .importError).database_name = "❌ Not Set")) :=
  ⟨by decide, by decide,
    C10_presence_only ⟨some "postgres://a/db1", none⟩ ⟨some "postgres://b/db2", none⟩
      .importError .dbNone (by decide) (by decide)⟩

end CurrencyExchange
